import Mathlib

/-
Shallow embedding of the hono_tunnel relay core (src/src/tunnel.ts,
src/src/index.js final TunnelManager-based revision, src/client/tunnel-client.js)
and proofs about the frozen claims.

JavaScript Map objects are modelled as insertion-ordered association lists with
the three operations used by the source: get, set (overwrite in place or append)
and delete.  Wall-clock instants are Nat milliseconds.  Promise resolution and
rejection, WebSocket close calls and outbound frames are modelled as explicit
event lists emitted by each operation.
-/

namespace HonoTunnel

/-- Model of JavaScript Map.get: first binding of the key, if any. -/
def mget {α : Type} (m : List (String × α)) (k : String) : Option α :=
  match m with
  | [] => none
  | (k2, v) :: rest => if k2 = k then some v else mget rest k

/-- Model of JavaScript Map.set: overwrite an existing binding in place,
otherwise append at the end (JS Maps iterate in insertion order). -/
def mset {α : Type} (m : List (String × α)) (k : String) (v : α) : List (String × α) :=
  match m with
  | [] => [(k, v)]
  | (k2, v2) :: rest => if k2 = k then (k, v) :: rest else (k2, v2) :: mset rest k v

/-- Model of JavaScript Map.delete: remove the binding of the key. -/
def mdel {α : Type} (m : List (String × α)) (k : String) : List (String × α) :=
  match m with
  | [] => []
  | (k2, v2) :: rest => if k2 = k then mdel rest k else (k2, v2) :: mdel rest k

/-- Model of JavaScript String.prototype.startsWith. -/
def strStartsWith (s pre : String) : Bool :=
  pre.toList.isPrefixOf s.toList

/-- JSON scalar values as they arrive in a request body; used to model the
JavaScript truthiness test on the localPort field. -/
inductive JsonVal : Type
  | jnull : JsonVal
  | jbool : Bool → JsonVal
  | jnum : Int → JsonVal
  | jstr : String → JsonVal
deriving DecidableEq, Repr

/-- JavaScript truthiness of a JSON scalar: null, false, 0 and the empty
string are falsy. -/
def truthy : JsonVal → Bool
  | JsonVal.jnull => false
  | JsonVal.jbool b => b
  | JsonVal.jnum n => n != 0
  | JsonVal.jstr s => s != ""

/-- Tunnel record from src/src/types.ts (interface Tunnel).  The localPort is
kept as the JSON value the create route received. -/
structure Tunnel : Type where
  id : String
  localPort : JsonVal
  createdAt : Nat
  lastActivity : Nat
  requestCount : Nat
  connected : Bool
deriving DecidableEq, Repr

/-- TunnelResponse payload from src/src/types.ts: an http_response frame body. -/
structure TunnelResponse : Type where
  requestId : String
  status : Nat
  headers : List (String × String)
  body : String
deriving DecidableEq, Repr

/-- Reason a pending request was settled. -/
inductive Outcome : Type
  | reply : TunnelResponse → Outcome
  | timedOut : Outcome
  | tunnelDeleted : Outcome
  | sendFailed : Outcome
deriving DecidableEq, Repr

/-- Observable side effects of the relay operations: a WebSocket close call on
a channel handle, the settlement of a pending request, or the initial
connected frame sent to a freshly attached channel. -/
inductive Event : Type
  | closeChannel : Nat → Event
  | resolved : String → Outcome → Event
  | sentConnected : Nat → Event
deriving DecidableEq, Repr

/-- The three maps owned by TunnelManager (src/src/tunnel.ts lines 7-13):
tunnels by id, WebSocket connections by tunnel id (handles as Nat), and
pending requests keyed by the string tunnelId ++ "-" ++ requestId, storing
the absolute deadline of the armed 30 s timer. -/
structure ManagerState : Type where
  tunnels : List (String × Tunnel)
  connections : List (String × Nat)
  pendingRequests : List (String × Nat)
deriving DecidableEq, Repr

/-- The empty TunnelManager. -/
def mgrInit : ManagerState :=
  { tunnels := [], connections := [], pendingRequests := [] }

/-- TunnelManager.generateId (src/src/tunnel.ts lines 15-17): the prefix of a
v4 UUID string before the first dash, i.e. uuidv4().split(Chr45)[0], modelled
on the character list of the UUID. -/
def generateId (uuid : List Char) : List Char :=
  uuid.takeWhile (fun c => c != '-')

/-- TunnelManager.createTunnel (src/src/tunnel.ts lines 19-40).  The id is the
subdomain when that is truthy (JS semantics of the || operator treat the empty
string as absent), otherwise the freshly generated id; a live id makes the
call throw. -/
def createTunnel (st : ManagerState) (localPort : JsonVal) (subdomain : Option String)
    (genId : String) (now : Nat) : Except String (ManagerState × Tunnel) :=
  let id := match subdomain with
    | some s => if s = "" then genId else s
    | none => genId
  if (mget st.tunnels id).isSome then
    Except.error "Tunnel ID already exists"
  else
    let t : Tunnel :=
      { id := id, localPort := localPort, createdAt := now, lastActivity := now,
        requestCount := 0, connected := false }
    Except.ok ({ st with tunnels := mset st.tunnels id t }, t)

/-- TunnelManager.deleteTunnel (src/src/tunnel.ts lines 54-84): close and drop
an attached channel, reject every pending request whose key starts with the
tunnel id (the literal startsWith test of line 70), and remove the record.
Returns the new state, the boolean result, and the emitted events. -/
def deleteTunnel (st : ManagerState) (id : String) : ManagerState × Bool × List Event :=
  match mget st.tunnels id with
  | none => (st, false, [])
  | some _ =>
    let closeEvts : List Event := match mget st.connections id with
      | some ws => [Event.closeChannel ws]
      | none => []
    let conns := mdel st.connections id
    let rejected := st.pendingRequests.filter (fun p => strStartsWith p.1 id)
    let kept := st.pendingRequests.filter (fun p => !(strStartsWith p.1 id))
    ({ tunnels := mdel st.tunnels id, connections := conns, pendingRequests := kept },
     true,
     closeEvts ++ rejected.map (fun p => Event.resolved p.1 Outcome.tunnelDeleted))

/-- TunnelManager.connectWebSocket (src/src/tunnel.ts lines 86-105): close any
previously attached channel, register the new one, mark the tunnel connected
and refresh lastActivity. -/
def connectWebSocket (st : ManagerState) (tunnelId : String) (ws : Nat) (now : Nat) :
    ManagerState × Bool × List Event :=
  match mget st.tunnels tunnelId with
  | none => (st, false, [])
  | some t =>
    let evts : List Event := match mget st.connections tunnelId with
      | some old => [Event.closeChannel old]
      | none => []
    ({ st with
        connections := mset st.connections tunnelId ws,
        tunnels := mset st.tunnels tunnelId { t with connected := true, lastActivity := now } },
     true, evts)

/-- TunnelManager.disconnectWebSocket (src/src/tunnel.ts lines 111-119): clear
the connected flag of the tunnel (when it still exists) and drop the channel
registered under the tunnel id, whichever channel that is. -/
def disconnectWebSocket (st : ManagerState) (tunnelId : String) : ManagerState :=
  let tunnels := match mget st.tunnels tunnelId with
    | some t => mset st.tunnels tunnelId { t with connected := false }
    | none => st.tunnels
  { st with tunnels := tunnels, connections := mdel st.connections tunnelId }

/-- The pending-request key of src/src/tunnel.ts line 128: tunnelId-requestId. -/
def requestKey (tunnelId requestId : String) : String :=
  tunnelId ++ "-" ++ requestId

/-- How the sendRequest call of src/src/tunnel.ts lines 121-157 left the
correlator: it threw synchronously because no channel is attached, it rejected
at once because the frame write threw, or the pending record is parked with a
30 s timer armed at the given deadline. -/
inductive SendInit : Type
  | noConnection : SendInit
  | sendThrew : SendInit
  | enqueued : String → Nat → SendInit
deriving DecidableEq, Repr

/-- TunnelManager.sendRequest (src/src/tunnel.ts lines 121-157).  The sendOk
flag models whether connection.send returned normally; on a throw the freshly
installed pending record is removed again and the caller is rejected. -/
def sendRequest (st : ManagerState) (tunnelId requestId : String) (now : Nat)
    (sendOk : Bool) : ManagerState × SendInit :=
  match mget st.connections tunnelId with
  | none => (st, SendInit.noConnection)
  | some _ =>
    let key := requestKey tunnelId requestId
    let armed := mset st.pendingRequests key (now + 30000)
    if sendOk then
      ({ st with pendingRequests := armed }, SendInit.enqueued key (now + 30000))
    else
      ({ st with pendingRequests := mdel armed key }, SendInit.sendThrew)

/-- The setTimeout callback of src/src/tunnel.ts lines 131-134, which fires at
the stored deadline of a still-armed timer: delete the pending record and
reject the caller with the Request timeout error. -/
def timerFire (st : ManagerState) (key : String) : ManagerState × List Event :=
  ({ st with pendingRequests := mdel st.pendingRequests key },
   [Event.resolved key Outcome.timedOut])

/-- TunnelManager.handleResponse (src/src/tunnel.ts lines 159-168): look up the
pending record under tunnelId-requestId; when present clear its timer, resolve
it with the response and drop it; otherwise do nothing at all. -/
def handleResponse (st : ManagerState) (tunnelId : String) (resp : TunnelResponse) :
    ManagerState × List Event :=
  let key := requestKey tunnelId resp.requestId
  match mget st.pendingRequests key with
  | some _ =>
    ({ st with pendingRequests := mdel st.pendingRequests key },
     [Event.resolved key (Outcome.reply resp)])
  | none => (st, [])

/-- The wss connection handler of src/websocket.ts (embedded in src/src/index.js
lines 537-616) for a request whose path already parsed as /ws/tunnelId: close
the channel with code 1002 when the tunnel does not exist, otherwise attach it
through connectWebSocket and send the initial connected frame. -/
def wsAttach (st : ManagerState) (tunnelId : String) (ws : Nat) (now : Nat) :
    ManagerState × List Event :=
  match mget st.tunnels tunnelId with
  | none => (st, [Event.closeChannel ws])
  | some _ =>
    match connectWebSocket st tunnelId ws now with
    | (st2, true, evts) => (st2, evts ++ [Event.sentConnected ws])
    | (st2, false, evts) => (st2, evts ++ [Event.closeChannel ws])

/-- The ws close and error handlers of src/websocket.ts (src/src/index.js lines
592-602): both call disconnectWebSocket with the tunnel id of the handler,
regardless of which channel is currently registered for that id. -/
def wsClosed (st : ManagerState) (tunnelId : String) : ManagerState :=
  disconnectWebSocket st tunnelId

/-- JSON body of POST /api/tunnel/create as destructured by the route
(src/src/index.js lines 925-926): the raw localPort value if the key is
present, and the optional subdomain. -/
structure CreateBody : Type where
  localPort : Option JsonVal
  subdomain : Option String
deriving DecidableEq, Repr

/-- The if-test of src/src/index.js line 928: an absent localPort and a falsy
localPort both fail the check. -/
def localPortMissing (v : Option JsonVal) : Bool :=
  match v with
  | none => true
  | some v => !truthy v

/-- POST /api/tunnel/create (src/src/index.js lines 923-950, the
TunnelManager-based revision): 400 when localPort is absent or falsy, then
createTunnel inside a try whose catch-all answers 500; on success 200.
Returns the new state, the HTTP status and the error message, if any. -/
def apiTunnelCreate (st : ManagerState) (body : CreateBody) (genId : String) (now : Nat) :
    ManagerState × Nat × Option String :=
  if localPortMissing body.localPort then
    (st, 400, some "Local port is required")
  else
    match createTunnel st (body.localPort.getD JsonVal.jnull) body.subdomain genId now with
    | Except.error _ => (st, 500, some "Failed to create tunnel")
    | Except.ok (st2, _) => (st2, 200, none)

/-- The inputs of the /t/:id/* proxy route (src/src/index.js lines 983-1012)
that feed the http_request frame: the HTTP method, the wildcard path parameter,
the raw query string and the decoded query pairs of the public URL, the
incoming header map as Hono reports it (lowercased keys), and the request body
text. -/
structure ProxyRequest : Type where
  method : String
  rest : String
  rawQuery : String
  queryPairs : List (String × String)
  headers : List (String × String)
  bodyText : String
deriving DecidableEq, Repr

/-- TunnelRequest payload from src/src/types.ts: an http_request frame body. -/
structure TunnelRequest : Type where
  id : String
  method : String
  path : String
  query : List (String × String)
  headers : List (String × String)
  body : Option String
deriving DecidableEq, Repr

/-- The requestData literal of src/src/index.js lines 1005-1012: the frame
carries the method, the slash-prefixed wildcard path, the query pairs, the
header map verbatim, and the body text for every method other than GET. -/
def mkRequestData (requestId : String) (r : ProxyRequest) : TunnelRequest :=
  { id := requestId,
    method := r.method,
    path := "/" ++ r.rest,
    query := r.queryPairs,
    headers := r.headers,
    body := if r.method != "GET" then some r.bodyText else none }

/-- How the awaited sendRequest promise of the proxy route settled: with a
response value (null is in the type of src/src/tunnel.ts line 121 but no
resolver ever passes it), or with one of the rejections, all of which the
route catches. -/
inductive SendResult : Type
  | resolved : Option TunnelResponse → SendResult
  | rejectedTimeout : SendResult
  | rejectedSendFailed : SendResult
  | rejectedTunnelDeleted : SendResult
  | threwNoConnection : SendResult
deriving DecidableEq, Repr

/-- The HTTP answer of the proxy route: status and, for the error answers, the
error message of the JSON body. -/
structure HttpReply : Type where
  status : Nat
  errMsg : Option String
deriving DecidableEq, Repr

/-- The /t/:id/* route of src/src/index.js lines 983-1041 as a function of the
tunnel lookup and the settled sendRequest promise: 404 on a missing tunnel,
503 on a detached one, 504 only in the dead null-response branch of line 1017,
the proxied status on success, and 500 from the catch-all for every rejection. -/
def proxyReply (tun : Option Tunnel) (res : SendResult) : HttpReply :=
  match tun with
  | none => { status := 404, errMsg := some "Tunnel not found" }
  | some t =>
    if !t.connected then
      { status := 503, errMsg := some "Tunnel not connected" }
    else
      match res with
      | SendResult.resolved none => { status := 504, errMsg := some "Request timeout" }
      | SendResult.resolved (some resp) =>
        { status := if resp.status = 0 then 200 else resp.status, errMsg := none }
      | _ => { status := 500, errMsg := some "Internal server error" }

/-- The tunnel-statistics update of src/src/index.js lines 1021-1023: only the
success path that returned a response increments requestCount and refreshes
lastActivity; every rejection jumps to the catch block first and the dead 504
branch returns before the increment. -/
def proxyUpdateTunnel (t : Tunnel) (res : SendResult) (now : Nat) : Tunnel :=
  match res with
  | SendResult.resolved (some _) =>
    { t with requestCount := t.requestCount + 1, lastActivity := now }
  | _ => t

/-- filterHeaders of the agent (src/client/tunnel-client.js lines 276-283):
copy the header map and delete exactly the host, connection and content-length
keys before forwarding to the local origin. -/
def filterHeaders (headers : List (String × String)) : List (String × String) :=
  headers.filter (fun p => !(p.1 = "host" || p.1 = "connection" || p.1 = "content-length"))

/-- Lowercase hexadecimal digit, the alphabet of v4 UUID segments (core-style
byte-range test). -/
def isLowerHex (c : Char) : Bool :=
  c.isDigit || (c.val ≥ 97 && c.val ≤ 102)

/-- The success test of the proxy route: the awaited promise resolved with an
actual response, so the reply was matched to the pending request. -/
def isMatchedReply (res : SendResult) : Bool :=
  match res with
  | SendResult.resolved (some _) => true
  | _ => false

/-- A public request carrying hop-by-hop headers, for the C1 counterexample:
the scenario of the header-stripping test of the spec. -/
def c1Req : ProxyRequest :=
  { method := "POST", rest := "submit", rawQuery := "", queryPairs := [],
    headers := [("host", "evil"), ("connection", "keep-alive"),
                ("content-length", "5"), ("accept", "text/html")],
    bodyText := "hello" }

/-- A public GET with a query string, for the C7 counterexample. -/
def c7Req : ProxyRequest :=
  { method := "GET", rest := "hello", rawQuery := "?x=1", queryPairs := [("x", "1")],
    headers := [], bodyText := "" }

/-- C2 fixture: the relay state after creating tunnel t1 through the create
route. -/
def c2StA : ManagerState :=
  (apiTunnelCreate mgrInit { localPort := some (JsonVal.jnum 3000), subdomain := some "t1" }
    "gen0" 0).1

/-- C2 fixture: the same relay after channel 7 attached to t1. -/
def c2StB : ManagerState :=
  (wsAttach c2StA "t1" 7 5).1

/-- C2 fixture: the same relay after a public request was dispatched on t1 at
instant 100 and parked as t1-r1. -/
def c2StC : ManagerState :=
  (sendRequest c2StB "t1" "r1" 100 true).1

/-- C3 fixture: the relay state after creating tunnel t1. -/
def c3St0 : ManagerState :=
  (apiTunnelCreate mgrInit { localPort := some (JsonVal.jnum 3000), subdomain := some "t1" }
    "gen0" 0).1

/-- C3 fixture: the same relay after channel 1 attached to t1. -/
def c3St1 : ManagerState :=
  (wsAttach c3St0 "t1" 1 10).1

/-- C3 fixture: the same relay after channel 2 attached to t1, replacing
channel 1 (which was told to close but whose close event is still queued). -/
def c3St2 : ManagerState :=
  (wsAttach c3St1 "t1" 2 20).1

/-- C5 fixture: the relay state after creating the tunnel with subdomain abc. -/
def c5St : ManagerState :=
  (apiTunnelCreate mgrInit { localPort := some (JsonVal.jnum 3000), subdomain := some "abc" }
    "g1" 0).1

/-- C6 fixture: a relay state in which the live tunnel id abc12345 coincides
with the id the generator is about to produce. -/
def c6St : ManagerState :=
  (apiTunnelCreate mgrInit { localPort := some (JsonVal.jnum 3000), subdomain := some "abc12345" }
    "g1" 0).1

/-- C6 witness fixture: the first segment of a concrete v4 UUID. -/
def c6Seg : List Char :=
  ['a', '1', 'b', '2', 'c', '3', 'd', '4']

/-- C9 fixture: relay with tunnel ab created. -/
def c9St0 : ManagerState :=
  (apiTunnelCreate mgrInit { localPort := some (JsonVal.jnum 3000), subdomain := some "ab" }
    "g1" 0).1

/-- C9 fixture: tunnel abc created next to ab; note ab is a proper prefix of
abc. -/
def c9St1 : ManagerState :=
  (apiTunnelCreate c9St0 { localPort := some (JsonVal.jnum 4000), subdomain := some "abc" }
    "g2" 0).1

/-- C9 fixture: channel 5 attached to tunnel abc. -/
def c9St2 : ManagerState :=
  (wsAttach c9St1 "abc" 5 10).1

/-- C9 fixture: a public request parked for tunnel abc under the key abc-r1. -/
def c9St3 : ManagerState :=
  (sendRequest c9St2 "abc" "r1" 100 true).1

/-- Pending map state for the C4 witness: one parked request of tunnel t1. -/
def c4State : ManagerState :=
  { tunnels := [], connections := [], pendingRequests := [("t1-r1", 30000)] }

/-- A matching reply frame for the C4 witness. -/
def c4Resp : TunnelResponse :=
  { requestId := "r1", status := 200, headers := [], body := "ok" }

/-- A reply frame matching no pending record, for the C4 witness. -/
def c4RespUnknown : TunnelResponse :=
  { requestId := "zz", status := 200, headers := [], body := "" }

section Lemmas

/-- Deleting a key from an association-list map makes lookups of that key miss. -/
theorem mget_mdel_self {α : Type} (m : List (String × α)) (k : String) :
    mget (mdel m k) k = none := by
  induction m with
  | nil => rfl
  | cons p rest ih =>
    by_cases h : p.1 = k
    · simpa [mdel, h] using ih
    · simp [mdel, mget, h, ih]

/-- takeWhile over an append whose left part satisfies the predicate stops at
the first failing element of the right part. -/
theorem takeWhile_append_of_all {α : Type} (p : α → Bool) (l r : List α)
    (hl : ∀ a ∈ l, p a = true) (hr : r = [] ∨ ∃ b t, r = b :: t ∧ p b = false) :
    (l ++ r).takeWhile p = l := by
  induction l with
  | nil =>
    rcases hr with h | ⟨b, t, hbt, hb⟩
    · simp [h]
    · simp [hbt, List.takeWhile, hb]
  | cons a l ih =>
    have ha : p a = true := hl a (List.mem_cons_self a l)
    have ih2 := ih (fun x hx => hl x (List.mem_cons_of_mem a hx))
    simp [List.takeWhile, ha, ih2]

/-- Every lowercase hexadecimal digit is alphanumeric. -/
theorem isLowerHex_isAlphanum (c : Char) (h : isLowerHex c = true) :
    c.isAlphanum = true := by
  unfold isLowerHex at h
  rw [Bool.or_eq_true] at h
  rcases h with hd | hr
  · simp [Char.isAlphanum, hd]
  · rw [Bool.and_eq_true] at hr
    obtain ⟨h1, h2⟩ := hr
    have h1p : (97 : UInt32) ≤ c.val := of_decide_eq_true h1
    have h2p : c.val ≤ (102 : UInt32) := of_decide_eq_true h2
    have h2n : c.val.toBitVec.toNat ≤ (102 : UInt32).toBitVec.toNat :=
      BitVec.le_def.mp (UInt32.le_def.mp h2p)
    have e102 : (102 : UInt32).toBitVec.toNat = 102 := rfl
    have e122 : (122 : UInt32).toBitVec.toNat = 122 := rfl
    have hb : c.val ≤ (122 : UInt32) := by
      apply UInt32.le_def.mpr
      apply BitVec.le_def.mpr
      omega
    have hlow : c.isLower = true := by
      unfold Char.isLower
      simp [h1p, hb]
    simp [Char.isAlphanum, Char.isAlpha, hlow]

/-- requestCount after one proxy-route update: plus one exactly when the reply
was matched. -/
theorem proxyUpdateTunnel_requestCount (u : Tunnel) (res : SendResult) (now : Nat) :
    (proxyUpdateTunnel u res now).requestCount
      = u.requestCount + (if isMatchedReply res then 1 else 0) := by
  cases res with
  | resolved o => cases o <;> simp [proxyUpdateTunnel, isMatchedReply]
  | rejectedTimeout => simp [proxyUpdateTunnel, isMatchedReply]
  | rejectedSendFailed => simp [proxyUpdateTunnel, isMatchedReply]
  | rejectedTunnelDeleted => simp [proxyUpdateTunnel, isMatchedReply]
  | threwNoConnection => simp [proxyUpdateTunnel, isMatchedReply]

end Lemmas

/-- C4: every pending request is resolved at most once.  When the pending
record under the key tunnelId-requestId exists, the first http_response frame
with that key emits exactly one resolution event and removes the record; a
second frame with the same key afterwards changes nothing and emits nothing;
and a frame whose key matches no pending record is dropped silently with no
state change. -/
theorem handleResponse_at_most_once (st st2 : ManagerState) (tid tid2 : String)
    (resp resp2 : TunnelResponse)
    (h1 : (mget st.pendingRequests (requestKey tid resp.requestId)).isSome = true)
    (h2 : mget st2.pendingRequests (requestKey tid2 resp2.requestId) = none) :
    (handleResponse st tid resp).2
      = [Event.resolved (requestKey tid resp.requestId) (Outcome.reply resp)] ∧
    mget (handleResponse st tid resp).1.pendingRequests (requestKey tid resp.requestId)
      = none ∧
    handleResponse (handleResponse st tid resp).1 tid resp
      = ((handleResponse st tid resp).1, []) ∧
    handleResponse st2 tid2 resp2 = (st2, []) := by
  obtain ⟨d, hd⟩ := Option.isSome_iff_exists.mp h1
  unfold handleResponse
  simp only [hd, mget_mdel_self, h2]
  exact ⟨trivial, trivial, trivial, trivial⟩

/-- C4 witness: a state holding the parked request t1-r1; its reply resolves
once, the duplicate and an unknown reply are dropped. -/
theorem handleResponse_at_most_once_witness :
    (mget c4State.pendingRequests (requestKey "t1" c4Resp.requestId)).isSome = true ∧
    mget c4State.pendingRequests (requestKey "t1" c4RespUnknown.requestId) = none ∧
    ((handleResponse c4State "t1" c4Resp).2
      = [Event.resolved (requestKey "t1" c4Resp.requestId) (Outcome.reply c4Resp)] ∧
    mget (handleResponse c4State "t1" c4Resp).1.pendingRequests
      (requestKey "t1" c4Resp.requestId) = none ∧
    handleResponse (handleResponse c4State "t1" c4Resp).1 "t1" c4Resp
      = ((handleResponse c4State "t1" c4Resp).1, []) ∧
    handleResponse c4State "t1" c4RespUnknown = (c4State, [])) :=
  ⟨by decide, by decide,
   handleResponse_at_most_once c4State c4State "t1" "t1" c4Resp c4RespUnknown
     (by decide) (by decide)⟩

/-- C8: requestCount of a tunnel is non-decreasing along the proxy-route
updates of its lifetime, and the fold over any sequence of settled requests
adds exactly the number of requests whose reply was successfully matched:
timeouts, rejections and the dead null-reply branch add nothing. -/
theorem requestCount_monotone_matched_only (t : Tunnel) (steps : List (SendResult × Nat)) :
    (steps.foldl (fun acc p => proxyUpdateTunnel acc p.1 p.2) t).requestCount
      = t.requestCount + steps.countP (fun p => isMatchedReply p.1) ∧
    ∀ (u : Tunnel) (res : SendResult) (now : Nat),
      u.requestCount ≤ (proxyUpdateTunnel u res now).requestCount := by
  constructor
  · induction steps generalizing t with
    | nil => simp
    | cons p rest ih =>
      simp only [List.foldl_cons, List.countP_cons, ih, proxyUpdateTunnel_requestCount]
      cases hm : isMatchedReply p.1
      all_goals simp [hm]
      all_goals omega
  · intro u res now
    rw [proxyUpdateTunnel_requestCount]
    cases hm : isMatchedReply res
    all_goals simp [hm]

/-- C10: a POST /api/tunnel/create whose localPort value is falsy (0, empty
string, false or null) is answered exactly like a request without localPort:
status 400, the Local port is required error, and an unchanged state. -/
theorem create_falsy_localPort_rejected (st : ManagerState) (sub : Option String)
    (v : JsonVal) (g : String) (now : Nat) (h : truthy v = false) :
    apiTunnelCreate st { localPort := some v, subdomain := sub } g now
      = apiTunnelCreate st { localPort := none, subdomain := sub } g now ∧
    apiTunnelCreate st { localPort := some v, subdomain := sub } g now
      = (st, 400, some "Local port is required") := by
  unfold apiTunnelCreate localPortMissing
  simp [h]

/-- C1 counterexample: a public request carrying the hop-by-hop headers host,
connection and content-length produces an http_request frame whose headers map
still contains all three, refuting the claim that no hop-by-hop header of the
incoming request appears on the wire to the agent. -/
theorem hop_by_hop_headers_reach_agent_cex :
    ("host", "evil") ∈ (mkRequestData "r1" c1Req).headers ∧
    ("connection", "keep-alive") ∈ (mkRequestData "r1" c1Req).headers ∧
    ("content-length", "5") ∈ (mkRequestData "r1" c1Req).headers ∧
    (mkRequestData "r1" c1Req).body = some "hello" := by
  decide

/-- C1 amended: the http_request frame forwards the incoming header map
verbatim, hop-by-hop headers included; header filtering happens only at the
agent, which before forwarding to the local origin removes exactly the host,
connection and content-length keys and keeps every other header. -/
theorem frame_headers_unfiltered_agent_filters (requestId : String) (r : ProxyRequest) :
    (mkRequestData requestId r).headers = r.headers ∧
    ∀ k v, ((k, v) ∈ filterHeaders r.headers ↔
      ((k, v) ∈ r.headers ∧ ¬ k = "host" ∧ ¬ k = "connection" ∧ ¬ k = "content-length")) := by
  refine ⟨rfl, fun k v => ?_⟩
  simp [filterHeaders, List.mem_filter, and_assoc]

/-- C7 counterexample: for the public request GET /t/id/hello?x=1 the frame
path field is /hello, not /hello?x=1, refuting the claim that the path equals
the wildcard rest concatenated with the raw query string. -/
theorem frame_path_omits_query_cex :
    (mkRequestData "r1" c7Req).path = "/hello" ∧
    ¬ (mkRequestData "r1" c7Req).path = "/" ++ c7Req.rest ++ c7Req.rawQuery := by
  decide

/-- C7 amended: the path field of the emitted http_request frame is the slash
prefixed wildcard rest without the query string; the query parameters travel
separately in the query field of the frame. -/
theorem frame_path_and_query_fields (requestId : String) (r : ProxyRequest) :
    (mkRequestData requestId r).path = "/" ++ r.rest ∧
    (mkRequestData requestId r).query = r.queryPairs :=
  ⟨rfl, rfl⟩

/-- C2: a request dispatched at instant 100 on the connected tunnel t1 is
parked under t1-r1 with the 30 s deadline 30100; when the timer fires the
pending map no longer contains the request, but the promise is rejected, so
the route catch-all answers 500 Internal server error and not the 504 of the
claim (the 504 branch only guards a null resolution that never occurs). -/
theorem timeout_yields_500_and_clears_pending :
    sendRequest c2StB "t1" "r1" 100 true = (c2StC, SendInit.enqueued "t1-r1" 30100) ∧
    mget c2StC.pendingRequests "t1-r1" = some 30100 ∧
    timerFire c2StC "t1-r1"
      = ({ c2StC with pendingRequests := [] }, [Event.resolved "t1-r1" Outcome.timedOut]) ∧
    mget (timerFire c2StC "t1-r1").1.pendingRequests "t1-r1" = none ∧
    proxyReply (mget c2StC.tunnels "t1") SendResult.rejectedTimeout
      = { status := 500, errMsg := some "Internal server error" } ∧
    ¬ (500 : Nat) = 504 := by
  decide

/-- C3: after channel 2 replaces channel 1 on tunnel t1, only channel 1 was
ever told to close and channel 2 received the connected frame; yet when the
queued close event of channel 1 is processed, the close handler detaches
whatever is registered under t1, leaving the tunnel disconnected and channel 2
deregistered — refuting the claim that the tunnel stays connected with the new
channel after such a sequence. -/
theorem stale_close_event_detaches_new_channel :
    (wsAttach c3St1 "t1" 2 20).2 = [Event.closeChannel 1, Event.sentConnected 2] ∧
    (mget c3St2.tunnels "t1").map Tunnel.connected = some true ∧
    mget c3St2.connections "t1" = some 2 ∧
    (mget (wsClosed c3St2 "t1").tunnels "t1").map Tunnel.connected = some false ∧
    mget (wsClosed c3St2 "t1").connections "t1" = none := by
  decide

/-- C5: creating a tunnel whose subdomain equals the live id abc makes
createTunnel throw the Tunnel ID already exists error and leaves the state
unchanged, but the route catch-all of the create endpoint maps the throw to
status 500 Failed to create tunnel instead of the 409 of the claim. -/
theorem create_existing_id_returns_500 :
    createTunnel c5St (JsonVal.jnum 4000) (some "abc") "g2" 5
      = Except.error "Tunnel ID already exists" ∧
    apiTunnelCreate c5St { localPort := some (JsonVal.jnum 4000), subdomain := some "abc" }
      "g2" 5 = (c5St, 500, some "Failed to create tunnel") ∧
    ¬ (500 : Nat) = 409 := by
  refine ⟨rfl, rfl, by decide⟩

/-- C6 counterexample: when the freshly generated id abc12345 coincides with a
live tunnel id, createTunnel without a caller-supplied subdomain fails with
the Tunnel ID already exists error instead of regenerating, refuting the claim
that create with no preferredId always succeeds. -/
theorem generated_id_collision_fails_create :
    createTunnel c6St (JsonVal.jnum 3000) none "abc12345" 1
      = Except.error "Tunnel ID already exists" := by
  rfl

/-- C6 amended: the generated id is the first dash-separated segment of a v4
UUID, hence 8 characters of lowercase hexadecimal, which lies in the claimed
6-8 alphanumeric range; but on a collision with a live id createTunnel throws
AlreadyExists instead of regenerating. -/
theorem generateId_format_no_regeneration (seg rest : List Char) (st : ManagerState)
    (port : JsonVal) (g : String) (now : Nat)
    (hseg : ∀ c ∈ seg, ¬ c = '-') (hlen : seg.length = 8)
    (hhex : ∀ c ∈ seg, isLowerHex c = true)
    (hlive : (mget st.tunnels g).isSome = true) :
    generateId (seg ++ '-' :: rest) = seg ∧
    6 ≤ (generateId (seg ++ '-' :: rest)).length ∧
    (generateId (seg ++ '-' :: rest)).length ≤ 8 ∧
    (∀ c ∈ generateId (seg ++ '-' :: rest), c.isAlphanum = true) ∧
    createTunnel st port none g now = Except.error "Tunnel ID already exists" := by
  have htw : generateId (seg ++ '-' :: rest) = seg := by
    unfold generateId
    apply takeWhile_append_of_all
    · intro a ha
      simpa using hseg a ha
    · right
      exact ⟨'-', rest, rfl, by simp⟩
  refine ⟨htw, ?_, ?_, ?_, ?_⟩
  · rw [htw, hlen]; decide
  · rw [htw, hlen]
  · rw [htw]
    intro c hc
    exact isLowerHex_isAlphanum c (hhex c hc)
  · simp [createTunnel, hlive]

/-- C6 amended witness: a concrete UUID a1b2c3d4-e5f6 and a relay whose live
id abc12345 equals the id about to be generated. -/
theorem generateId_format_no_regeneration_witness :
    (∀ c ∈ c6Seg, ¬ c = '-') ∧ c6Seg.length = 8 ∧ (∀ c ∈ c6Seg, isLowerHex c = true) ∧
    (mget c6St.tunnels "abc12345").isSome = true ∧
    (generateId (c6Seg ++ '-' :: ['e', '5', 'f', '6']) = c6Seg ∧
     6 ≤ (generateId (c6Seg ++ '-' :: ['e', '5', 'f', '6'])).length ∧
     (generateId (c6Seg ++ '-' :: ['e', '5', 'f', '6'])).length ≤ 8 ∧
     (∀ c ∈ generateId (c6Seg ++ '-' :: ['e', '5', 'f', '6']), c.isAlphanum = true) ∧
     createTunnel c6St (JsonVal.jnum 9) none "abc12345" 3
       = Except.error "Tunnel ID already exists") :=
  ⟨by decide, by decide, by decide, by decide,
   generateId_format_no_regeneration c6Seg ['e', '5', 'f', '6'] c6St (JsonVal.jnum 9)
     "abc12345" 3 (by decide) (by decide) (by decide) (by decide)⟩

/-- C9: deleting tunnel ab rejects and removes the pending request abc-r1 of
the distinct tunnel abc, because the cleanup matches pending keys by the
string prefix ab; the claim that pending requests of every other tunnel stay
untouched fails exactly when the deleted id is a prefix of another live id. -/
theorem deleteTunnel_prefix_cancels_other_tunnel :
    mget c9St3.pendingRequests "abc-r1" = some 30100 ∧
    (deleteTunnel c9St3 "ab").2.1 = true ∧
    mget (deleteTunnel c9St3 "ab").1.pendingRequests "abc-r1" = none ∧
    (deleteTunnel c9St3 "ab").2.2 = [Event.resolved "abc-r1" Outcome.tunnelDeleted] ∧
    (mget (deleteTunnel c9St3 "ab").1.tunnels "abc").isSome = true := by
  decide

/-- C10 witness: localPort 0 is rejected with 400 like an absent localPort. -/
theorem create_falsy_localPort_rejected_witness :
    truthy (JsonVal.jnum 0) = false ∧
    (apiTunnelCreate mgrInit { localPort := some (JsonVal.jnum 0), subdomain := none } "g" 0
      = apiTunnelCreate mgrInit { localPort := none, subdomain := none } "g" 0 ∧
    apiTunnelCreate mgrInit { localPort := some (JsonVal.jnum 0), subdomain := none } "g" 0
      = (mgrInit, 400, some "Local port is required")) :=
  ⟨by decide,
   create_falsy_localPort_rejected mgrInit none (JsonVal.jnum 0) "g" 0 (by decide)⟩

end HonoTunnel
